import Mathlib

/-
  Verification development for the pushdown-automata simulator
  (src/automata.py).  The Python engine and parser are shallowly
  embedded below: the mutable fields of the Automata class become an
  explicit Config record, exceptions raised by the Python runtime
  (IndexError on list.pop / list[-1], KeyError on dict lookup,
  ValueError raised by the parser) become explicit error values.
-/

deriving instance DecidableEq for Except

/-! ## Symbols and the reserved markers (automata.py lines 6-7) -/

def STACK_END : String := ">"

def INPUT_END : String := "<"

/-! ## Transition table model (automata.py lines 10-41) -/

structure TransitionFunctionInput where
  input_symbol : String
  stack_top : String
deriving DecidableEq, Repr

structure TransitionFunctionValue where
  next_state : String
  symbols_to_push : List String
deriving DecidableEq, Repr

/-- The transitions field of the Automata class: a dict from state name
to a dict from TransitionFunctionInput to TransitionFunctionValue,
embedded as nested association lists with unique keys. -/
abbrev StateTransitions := List (TransitionFunctionInput × TransitionFunctionValue)

abbrev Transitions := List (String × StateTransitions)

def lookupState (ts : Transitions) (s : String) : Option StateTransitions :=
  match ts with
  | [] => none
  | (s0, m) :: rest => if s0 = s then some m else lookupState rest s

def lookupKey (m : StateTransitions) (k : TransitionFunctionInput) :
    Option TransitionFunctionValue :=
  match m with
  | [] => none
  | (k0, v) :: rest => if k0 = k then some v else lookupKey rest k

/-! ## The Automata class (automata.py lines 43-76) -/

structure Automata where
  states : List String
  alphabet : List String
  transitions : Transitions
  initial_state : String
  final_states : List String
  rejecting_states : List String
deriving DecidableEq, Repr

/-- The mutable run state of the Automata object: the private fields
state (the current state) and stack (a Python list whose top is the
last element). -/
structure Config where
  state : String
  stack : List String
deriving DecidableEq, Repr

/-- The run state set up by the constructor (automata.py lines 68-70):
current state is the initial state and the stack holds exactly the
stack-bottom sentinel. -/
def initConfig (a : Automata) : Config :=
  { state := a.initial_state, stack := [STACK_END] }

/-- Python exceptions the simulate method can raise: IndexError from
popping an empty list (line 93), KeyError from indexing the
transitions dict with an unknown state (line 96), IndexError from
reading stack[-1] of an empty list (line 116). -/
inductive SimError where
  | stackUnderflow : SimError
  | keyError : String → SimError
  | indexError : SimError
deriving DecidableEq, Repr

/-- Python list.pop removes and returns the last element; on an empty
list it raises IndexError, modelled by none. -/
def popLast (l : List String) : Option (String × List String) :=
  match l.getLast? with
  | none => none
  | some x => some (x, l.dropLast)

/-! ## The simulate method (automata.py lines 78-118)

The loop body is translated clause by clause:
line 88 alphabet test, line 93 unconditional pop (IndexError when the
stack is empty), line 96 dict lookup of the current state (KeyError
when absent), lines 96-100 matched transition with the push loop,
lines 101-108 rejecting-before-final short circuit, lines 109-115 no
matching transition, lines 116-118 the end-of-input decision with the
short-circuiting or. -/

def simulateLoop (a : Automata) : Config → List String → Except SimError (Bool × Config)
  | cfg, [] =>
    if cfg.state ∈ a.final_states then .ok (true, cfg)
    else
      match cfg.stack.getLast? with
      | none => .error .indexError
      | some top => if top = STACK_END then .ok (true, cfg) else .ok (false, cfg)
  | cfg, sym :: rest =>
    if sym ∈ a.alphabet then
      match popLast cfg.stack with
      | none => .error .stackUnderflow
      | some (top, stackRest) =>
        match lookupState a.transitions cfg.state with
        | none => .error (.keyError cfg.state)
        | some m =>
          match lookupKey m { input_symbol := sym, stack_top := top } with
          | none => .ok (false, { state := cfg.state, stack := stackRest })
          | some v =>
            let cfg2 : Config := { state := v.next_state, stack := stackRest ++ v.symbols_to_push }
            if cfg2.state ∈ a.rejecting_states then .ok (false, cfg2)
            else if cfg2.state ∈ a.final_states then .ok (true, cfg2)
            else simulateLoop a cfg2 rest
    else .ok (false, cfg)

/-- One call of the simulate method, run from an explicit configuration
(the Python method reads and writes the private state and stack fields
of its instance; nothing in its body reinitialises them). -/
def simulate (a : Automata) (cfg : Config) (input : List String) :
    Except SimError (Bool × Config) :=
  simulateLoop a cfg input

/-- The boolean a simulate call returns, discarding the mutated fields. -/
def simulateResult (a : Automata) (cfg : Config) (input : List String) :
    Except SimError Bool :=
  (simulate a cfg input).map Prod.fst

/-- Two consecutive calls to simulate on the same instance with the
same input: the first call starts from the construction-time run state
and the second from whatever the first call left behind. -/
def runTwice (a : Automata) (input : List String) : Except SimError (Bool × Bool) :=
  match simulate a (initConfig a) input with
  | .error e => .error e
  | .ok (b1, c1) =>
    match simulate a c1 input with
    | .error e => .error e
    | .ok (b2, _) => .ok (b1, b2)

/-! ## The canonical worked automaton (automata.py lines 214-273) -/

def canonicalTransitions : Transitions :=
  [ ("q0",
      [ (⟨"0", STACK_END⟩, ⟨"q1", [">", "0"]⟩),
        (⟨"0", "0"⟩, ⟨"q1", ["0", "0"]⟩),
        (⟨"0", "1"⟩, ⟨"q1", []⟩),
        (⟨"1", STACK_END⟩, ⟨"q0", [">", "1"]⟩),
        (⟨"1", "0"⟩, ⟨"q0", []⟩),
        (⟨"1", "1"⟩, ⟨"q0", ["1", "1"]⟩),
        (⟨INPUT_END, STACK_END⟩, ⟨"qA", [">"]⟩),
        (⟨INPUT_END, "0"⟩, ⟨"qR", []⟩),
        (⟨INPUT_END, "1"⟩, ⟨"qR", []⟩) ]),
    ("q1",
      [ (⟨"0", STACK_END⟩, ⟨"q0", [">"]⟩),
        (⟨"0", "0"⟩, ⟨"q0", ["0"]⟩),
        (⟨"0", "1"⟩, ⟨"q0", ["1"]⟩),
        (⟨"1", STACK_END⟩, ⟨"q1", [">", "1"]⟩),
        (⟨"1", "0"⟩, ⟨"q1", []⟩),
        (⟨"1", "1"⟩, ⟨"q1", ["1", "1"]⟩),
        (⟨INPUT_END, STACK_END⟩, ⟨"qR", [">"]⟩),
        (⟨INPUT_END, "0"⟩, ⟨"qR", ["0"]⟩),
        (⟨INPUT_END, "1"⟩, ⟨"qR", ["1"]⟩) ]) ]

def canonicalAutomata : Automata :=
  { states := ["q0", "q1", "qR", "qA"],
    alphabet := ["0", "1", "<"],
    transitions := canonicalTransitions,
    initial_state := "q0",
    final_states := ["qA"],
    rejecting_states := ["qR"] }

example : simulateResult canonicalAutomata (initConfig canonicalAutomata)
    ["1", "0", "0"] = .ok true := by decide

example : simulateResult canonicalAutomata (initConfig canonicalAutomata)
    ["0", "0", "1", "0"] = .ok false := by decide

example : simulateResult canonicalAutomata (initConfig canonicalAutomata)
    ["<"] = .ok true := by decide

/-! ## Enumeration of binary strings, for the worked-example property
(automata.py lines 276-285 test every permutation of a multiset
holding three ones and six zeros) -/

def basePerm : List String := ["1", "1", "0", "0", "0", "0", "1", "0", "0"]

/-- All lists of the given length over the two canonical input symbols. -/
def binLists : Nat → List (List String)
  | 0 => [[]]
  | n + 1 =>
    ((binLists n).map (fun l => "0" :: l)) ++ ((binLists n).map (fun l => "1" :: l))

/-- The per-string check of the test harness: a string with six zeros
and three ones must be accepted from a fresh configuration. -/
def permCheck (p : List String) : Bool :=
  !(decide (p.count "0" = 6) && decide (p.count "1" = 3)) ||
    decide (simulateResult canonicalAutomata (initConfig canonicalAutomata) p = .ok true)

def allPermChecked : Bool := (binLists 9).all permCheck

set_option maxRecDepth 100000 in
theorem allPermChecked_true : allPermChecked = true := by decide

theorem mem_binLists (l : List String) :
    ∀ n, l.length = n → (∀ x ∈ l, x = "0" ∨ x = "1") → l ∈ binLists n := by
  induction l with
  | nil =>
    intro n hn _
    subst hn
    simp [binLists]
  | cons x xs ih =>
    intro n hn hmem
    subst hn
    have hx := hmem x (by simp)
    have hxs : xs ∈ binLists xs.length :=
      ih xs.length rfl (fun y hy => hmem y (by simp [hy]))
    rw [List.length_cons, binLists]
    rcases hx with hx | hx
    · exact List.mem_append_left _ (List.mem_map.mpr ⟨xs, hxs, by rw [hx]⟩)
    · exact List.mem_append_right _ (List.mem_map.mpr ⟨xs, hxs, by rw [hx]⟩)

/-! ## The definition-file parser (automata.py lines 143-211) -/

/-- The ValueError raised at automata.py line 175: its message names
the offending state and the declared state list. -/
inductive ParseError where
  | stateNotInStates : String → List String → ParseError
deriving DecidableEq, Repr

/-- The local variables of create_from_file while the line loop runs. -/
structure ParseState where
  states : List String
  alphabet : List String
  initial_state : Option String
  final_states : List String
  rejecting_states : List String
  transition_function : Transitions
  current_state : Option String
deriving DecidableEq, Repr

def initParseState : ParseState :=
  { states := [], alphabet := [], initial_state := none, final_states := [],
    rejecting_states := [], transition_function := [], current_state := none }

/-- Python str.strip: drop whitespace from both ends.  Implemented on
the character list so that it evaluates inside the kernel. -/
def pyStrip (s : String) : String :=
  String.mk (((s.toList.dropWhile Char.isWhitespace).reverse.dropWhile
    Char.isWhitespace).reverse)

/-- Python str.startswith. -/
def pyStarts (s pat : String) : Bool :=
  pat.toList.isPrefixOf s.toList

/-- The worker of Python str.split for a nonempty separator; the fuel
argument starts at the length of the text, which one unit per consumed
character never exhausts early. -/
def pySplitAux (sep : List Char) : Nat → List Char → List Char → List (List Char)
  | 0, acc, l => [acc.reverse ++ l]
  | _ + 1, acc, [] => [acc.reverse]
  | n + 1, acc, c :: cs =>
    if sep.isPrefixOf (c :: cs) then
      acc.reverse :: pySplitAux sep n [] ((c :: cs).drop sep.length)
    else
      pySplitAux sep n (c :: acc) cs

/-- Python str.split with a nonempty separator string. -/
def pySplit (s sep : String) : List String :=
  (pySplitAux sep.toList s.toList.length [] s.toList).map String.mk

/-- Python line.split(":")[1].strip() as used by the section branches;
every such branch runs only when the line holds a colon, so index one
exists there. -/
def splitField (line : String) : String :=
  pyStrip ((pySplit line ":").getD 1 "")

def isWordChar (c : Char) : Bool := c.isAlphanum || c = '_'

/-- The regex at automata.py line 172: the whole line is one or more
word characters followed by a colon; on a match the state name is
line[:-1]. -/
def matchStateHeader (line : String) : Option String :=
  match line.toList.reverse with
  | ':' :: rev =>
    if !rev.isEmpty && rev.all isWordChar then some (String.mk rev.reverse)
    else none
  | _ => none

/-- All splits of a list into a nonempty front part and the rest,
longest front first: the backtracking order of a greedy regex group. -/
def splitsDesc (l : List Char) : List (List Char × List Char) :=
  (List.range l.length).map (fun k => (l.take (l.length - k), l.drop (l.length - k)))

/-- The tail of the transition-line regex after the close-paren arrow:
a greedy nonempty run of word characters, the literal space and open
bracket, then a greedy possibly-empty group ending at the last close
bracket; trailing text after that is allowed since the pattern is not
anchored at the end. -/
def matchArrowTail (l : List Char) : Option (List Char × List Char) :=
  let w := l.takeWhile isWordChar
  let r := l.drop w.length
  if w.isEmpty then none
  else if r.take 2 = [' ', '['] then
    match (r.drop 2).reverse.findIdx? (fun c => c = ']') with
    | none => none
    | some i => some (w, (r.drop 2).take ((r.drop 2).length - 1 - i))
  else none

/-- The regex at automata.py line 177 with re.match semantics: the
pattern is anchored at the start, groups one and two are greedy and
nonempty and separated by a literal comma-space, group three is a
greedy word, group four is the bracketed push list. -/
def matchTransitionLine (line : String) : Option (String × String × String × String) :=
  match line.toList with
  | '(' :: rest =>
    (splitsDesc rest).findSome? (fun ar =>
      if ar.2.take 2 = [',', ' '] then
        (splitsDesc (ar.2.drop 2)).findSome? (fun br =>
          if br.2.take 5 = [')', ' ', '-', '>', ' '] then
            (matchArrowTail (br.2.drop 5)).map (fun wc =>
              (String.mk ar.1, String.mk br.1, String.mk wc.1, String.mk wc.2))
          else none)
      else none)
  | _ => none

/-- The name substitution of automata.py lines 180-183 and 188-195:
the two reserved tokens become the sentinel and the marker, every
other token is verbatim. -/
def substReserved (x : String) : String :=
  if x = "STACK_END" then STACK_END
  else if x = "INPUT_END" then INPUT_END
  else x

/-- The push-list handling at automata.py lines 184-199: an empty
group gives an empty list, otherwise the group splits on comma-space
and every entry is stripped and substituted. -/
def parsePushList (act : String) : List String :=
  if act = "" then []
  else (pySplit act ", ").map (fun x => substReserved (pyStrip x))

/-- Python dict assignment d[k] = v on an association list. -/
def insertKey (m : StateTransitions) (k : TransitionFunctionInput)
    (v : TransitionFunctionValue) : StateTransitions :=
  match m with
  | [] => [(k, v)]
  | (k0, v0) :: rest =>
    if k0 = k then (k, v) :: rest else (k0, v0) :: insertKey rest k v

/-- The defaultdict update transition_function[current_state][key] = value
at automata.py lines 200-202. -/
def insertTF (tf : Transitions) (s : String) (k : TransitionFunctionInput)
    (v : TransitionFunctionValue) : Transitions :=
  match tf with
  | [] => [(s, insertKey [] k v)]
  | (s0, m) :: rest =>
    if s0 = s then (s, insertKey m k v) :: rest else (s0, m) :: insertTF rest s k v

/-- Python substring containment of the arrow in the line. -/
def hasArrow (line : String) : Bool := (pySplit line "->").length != 1

/-- One iteration of the parsing loop (automata.py lines 155-202) on
the already stripped line; the branch order is the elif chain of the
source.  The NameError Python raises when a transition line precedes
every transition_function header (the current_state variable is then
unbound rather than None) is outside the claims and is modelled as a
skip. -/
def processTrimmed (ps : ParseState) (line : String) : Except ParseError ParseState :=
  if pyStarts line "#" || line.toList.isEmpty then .ok ps
  else if pyStarts line "states:" then
    .ok { ps with states := pySplit (splitField line) ", " }
  else if pyStarts line "alphabet:" then
    .ok { ps with alphabet := pySplit (splitField line) ", " }
  else if pyStarts line "initial_state:" then
    .ok { ps with initial_state := some (splitField line) }
  else if pyStarts line "final_states:" then
    .ok { ps with final_states := pySplit (splitField line) ", " }
  else if pyStarts line "rejecting_states:" then
    .ok { ps with rejecting_states := pySplit (splitField line) ", " }
  else if pyStarts line "transition_function:" then
    .ok { ps with current_state := none }
  else
    match matchStateHeader line with
    | some s =>
      if s ∈ ps.states then .ok { ps with current_state := some s }
      else .error (.stateNotInStates s ps.states)
    | none =>
      match ps.current_state with
      | some cs =>
        if hasArrow line then
          match matchTransitionLine line with
          | some (i, st, ns, act) =>
            let tf := insertTF ps.transition_function cs
              ⟨i, substReserved st⟩ ⟨ns, parsePushList act⟩
            .ok { ps with transition_function := tf }
          | none => .ok ps
        else .ok ps
      | none => .ok ps

/-- One iteration of the parsing loop on the raw line, including the
strip at automata.py line 156. -/
def processLine (ps : ParseState) (rawLine : String) : Except ParseError ParseState :=
  processTrimmed ps (pyStrip rawLine)

/-- The whole line loop: the raised ValueError aborts it. -/
def parseLines : ParseState → List String → Except ParseError ParseState
  | ps, [] => .ok ps
  | ps, l :: rest =>
    match processLine ps l with
    | .ok ps2 => parseLines ps2 rest
    | .error e => .error e

/-- The constructor defaults of automata.py lines 63-66 and the seed
of the run state at lines 68-70; Python states[0] and states[-1] on an
empty list raise IndexError, modelled by none. -/
def autoInit (states : List String) (alphabet : List String)
    (transitions : Transitions) (initial_state : Option String)
    (final_states : Option (List String)) (rejecting_states : List String) :
    Option (Automata × Config) :=
  let ist := match initial_state with
    | some i => some i
    | none => states.head?
  let fs := match final_states with
    | some f => some f
    | none => states.getLast?.map (fun s => [s])
  match ist, fs with
  | some i, some f =>
    some ({ states := states, alphabet := alphabet, transitions := transitions,
            initial_state := i, final_states := f, rejecting_states := rejecting_states },
          { state := i, stack := [STACK_END] })
  | _, _ => none

/-- create_from_file (automata.py lines 143-211) on the list of lines
of the file: run the line loop, then hand the accumulated sections to
the constructor; the parser always passes a final-states list, never
the Python None. -/
def create_from_file (lines : List String) :
    Except ParseError (Option (Automata × Config)) :=
  (parseLines initParseState lines).map (fun ps =>
    autoInit ps.states ps.alphabet ps.transition_function ps.initial_state
      (some ps.final_states) ps.rejecting_states)

example : matchStateHeader "q0:" = some "q0" := by decide

example : matchStateHeader "(a, b) -> q0 [x]" = none := by decide

example : matchTransitionLine "(a, STACK_END) -> q1 [STACK_END, x]" =
    some ("a", "STACK_END", "q1", "STACK_END, x") := by decide

example : matchTransitionLine "(a, b, c) -> q1 []" =
    some ("a, b", "c", "q1", "") := by decide

example : parseLines initParseState
    ["# comment", "", "states: q0, q1", "alphabet: 0, 1", "initial_state: q0",
     "final_states: q1", "rejecting_states: qX", "transition_function:", "  q0:",
     "    (0, STACK_END) -> q1 [STACK_END, 0]"] =
  .ok { states := ["q0", "q1"], alphabet := ["0", "1"], initial_state := some "q0",
        final_states := ["q1"], rejecting_states := ["qX"],
        transition_function := [("q0", [(⟨"0", ">"⟩, ⟨"q1", [">", "0"]⟩)])],
        current_state := some "q0" } := by decide

/-! ## Small demonstration automata used as witnesses -/

/-- A two-state automaton whose accepting run mutates the stored run
state: the first call accepts in state B, the second call starts in B
where no key matches. -/
def statefulDemo : Automata :=
  { states := ["A", "B"], alphabet := ["a"],
    transitions := [("A", [(⟨"a", ">"⟩, ⟨"B", [">"]⟩)]), ("B", [])],
    initial_state := "A", final_states := ["B"], rejecting_states := [] }

/-- An automaton whose single transition moves to a state that is both
rejecting and final. -/
def rejectDemo : Automata :=
  { states := ["A", "R"], alphabet := ["a"],
    transitions := [("A", [(⟨"a", ">"⟩, ⟨"R", [">"]⟩)])],
    initial_state := "A", final_states := ["R"], rejecting_states := ["R"] }

/-- A malformed automaton whose only action is a pure pop, so a second
input symbol pops the empty stack. -/
def underflowDemo : Automata :=
  { states := ["A"], alphabet := ["a"],
    transitions := [("A", [(⟨"a", ">"⟩, ⟨"A", []⟩)])],
    initial_state := "A", final_states := [], rejecting_states := [] }

/-- An automaton whose transition moves to a state that has no entry
in the transitions mapping and is neither final nor rejecting. -/
def missingStateDemo : Automata :=
  { states := ["A", "B"], alphabet := ["a"],
    transitions := [("A", [(⟨"a", ">"⟩, ⟨"B", [">"]⟩)])],
    initial_state := "A", final_states := [], rejecting_states := [] }

/-! ## Claim theorems -/

/-- Claim C9: on a freshly constructed automaton, whose stack is seeded
to exactly the stack-bottom sentinel, simulate of the empty input
returns true, whatever the membership of the initial state in the
final or rejecting sets: the loop body never runs, and the end-of-input
check sees either a final state or the sentinel on top of the stack. -/
theorem simulate_empty_input_true (a : Automata) :
    simulate a (initConfig a) [] = .ok (true, initConfig a) := by
  unfold simulate simulateLoop initConfig
  by_cases h : a.initial_state ∈ a.final_states <;> simp [h, STACK_END]

/-- Claim C3: once the loop has consumed every input symbol without an
early return, the decision of automata.py lines 116-118 applies: the
call returns true exactly when the current state is final or the stack
top equals the sentinel, and in particular a non-final, non-rejecting
state with the sentinel on top yields true (acceptance by empty
stack). -/
theorem simulate_end_decision (a : Automata) (cfg : Config) (top : String)
    (h : cfg.stack.getLast? = some top) :
    simulateLoop a cfg [] =
      .ok (decide (cfg.state ∈ a.final_states) || decide (top = STACK_END), cfg) ∧
    (cfg.state ∉ a.final_states → cfg.state ∉ a.rejecting_states →
      top = STACK_END → simulateLoop a cfg [] = .ok (true, cfg)) := by
  constructor
  · unfold simulateLoop
    by_cases hf : cfg.state ∈ a.final_states
    · simp [hf]
    · by_cases ht : top = STACK_END <;> simp [hf, h, ht]
  · intro hf _ ht
    unfold simulateLoop
    simp [hf, h, ht]

theorem simulate_end_decision_witness :
    simulateLoop statefulDemo { state := "A", stack := [">"] } [] =
      .ok (true, { state := "A", stack := [">"] }) :=
  (simulate_end_decision statefulDemo { state := "A", stack := [">"] } ">"
    (by decide)).2 (by decide) (by decide) (by decide)

/-- Claim C4 counterexample: an input holding a symbol outside the
alphabet on which simulate returns true, because the run short-circuit
accepts on the first symbol and never reaches the foreign one. -/
theorem outside_alphabet_accepted :
    ("x" ∉ canonicalAutomata.alphabet) ∧
    simulateResult canonicalAutomata (initConfig canonicalAutomata) ["<", "x"] =
      .ok true := by
  decide

/-- Claim C4 amended: simulate returns false when the scan reaches a
symbol outside the declared alphabet, whatever the configuration and
the remaining input; an input containing a foreign symbol can still be
accepted when an earlier symbol short-circuit accepts or rejects. -/
theorem simulate_rejects_at_foreign_symbol (a : Automata) (cfg : Config)
    (sym : String) (rest : List String) (h : sym ∉ a.alphabet) :
    simulateLoop a cfg (sym :: rest) = .ok (false, cfg) := by
  unfold simulateLoop
  simp [h]

theorem simulate_rejects_at_foreign_symbol_witness :
    simulateLoop canonicalAutomata (initConfig canonicalAutomata) ["x"] =
      .ok (false, initConfig canonicalAutomata) :=
  simulate_rejects_at_foreign_symbol canonicalAutomata
    (initConfig canonicalAutomata) "x" [] (by decide)

/-- Claim C5: after a matched transition the updated state is checked,
rejecting membership first: a rejecting next state returns false at
once, whatever the remaining input and even when the state is also
final (precedence); otherwise a final next state returns true at
once. -/
theorem simulate_reject_precedence (a : Automata) (cfg : Config)
    (sym top : String) (stackRest : List String) (m : StateTransitions)
    (v : TransitionFunctionValue) (rest : List String)
    (ha : sym ∈ a.alphabet)
    (hp : popLast cfg.stack = some (top, stackRest))
    (hs : lookupState a.transitions cfg.state = some m)
    (hk : lookupKey m ⟨sym, top⟩ = some v) :
    (v.next_state ∈ a.rejecting_states →
      simulateLoop a cfg (sym :: rest) =
        .ok (false, { state := v.next_state, stack := stackRest ++ v.symbols_to_push })) ∧
    (v.next_state ∉ a.rejecting_states → v.next_state ∈ a.final_states →
      simulateLoop a cfg (sym :: rest) =
        .ok (true, { state := v.next_state, stack := stackRest ++ v.symbols_to_push })) := by
  constructor
  · intro hr
    unfold simulateLoop
    simp [ha, hp, hs, hk, hr]
  · intro hr hf
    unfold simulateLoop
    simp [ha, hp, hs, hk, hr, hf]

theorem simulate_reject_precedence_witness :
    simulateLoop rejectDemo (initConfig rejectDemo) ["a", "a"] =
      .ok (false, { state := "R", stack := [">"] }) :=
  (simulate_reject_precedence rejectDemo (initConfig rejectDemo) "a" ">" []
    [(⟨"a", ">"⟩, ⟨"R", [">"]⟩)] ⟨"R", [">"]⟩ ["a"]
    (by decide) (by decide) (by decide) (by decide)).1 (by decide)

/-- Claim C8: a pop on an empty stack is the fatal IndexError of
automata.py line 93, an outcome distinct from the boolean rejection
result; it arises only when a malformed table drains the stack, as the
pure-pop underflowDemo automaton does. -/
theorem simulate_pop_empty_fatal (a : Automata) (cfg : Config) (sym : String)
    (rest : List String) (ha : sym ∈ a.alphabet) (he : cfg.stack = []) :
    simulateLoop a cfg (sym :: rest) = .error .stackUnderflow := by
  unfold simulateLoop
  simp [ha, he, popLast]

theorem simulate_pop_empty_fatal_witness :
    simulateLoop underflowDemo { state := "A", stack := [] } ["a"] =
      .error .stackUnderflow :=
  simulate_pop_empty_fatal underflowDemo { state := "A", stack := [] } "a" []
    (by decide) rfl

example : simulate underflowDemo (initConfig underflowDemo) ["a", "a"] =
    .error .stackUnderflow := by decide

/-- Claim C10: when the current state has no entry at all in the
transitions mapping, consuming an in-alphabet symbol makes the lookup
at automata.py line 96 raise KeyError instead of returning false. -/
theorem simulate_missing_state_keyerror (a : Automata) (cfg : Config)
    (sym top : String) (stackRest : List String) (rest : List String)
    (ha : sym ∈ a.alphabet)
    (hp : popLast cfg.stack = some (top, stackRest))
    (hs : lookupState a.transitions cfg.state = none) :
    simulateLoop a cfg (sym :: rest) = .error (.keyError cfg.state) := by
  unfold simulateLoop
  simp [ha, hp, hs]

theorem simulate_missing_state_keyerror_witness :
    simulateLoop missingStateDemo { state := "B", stack := [">"] } ["a"] =
      .error (.keyError "B") :=
  simulate_missing_state_keyerror missingStateDemo
    { state := "B", stack := [">"] } "a" ">" [] [] (by decide) (by decide) (by decide)

example : simulate missingStateDemo (initConfig missingStateDemo) ["a", "a"] =
    .error (.keyError "B") := by decide

/-- Claim C1 counterexample: two consecutive simulate calls on the same
instance with the same input return different results, because the
simulate method never resets the stored current state and stack; the
first call on statefulDemo accepts and leaves the run in state B, from
which the second call finds no matching transition. -/
theorem runTwice_differs : runTwice statefulDemo ["a"] = .ok (true, false) := by
  decide

/-- Claim C1 amended: simulate performs no reset, so a repeated call is
only guaranteed to return the same result when the first call happens
to leave the current state and stack at their construction-time
values; in general the second call resumes from the mutated run state
and may answer differently. -/
theorem runTwice_identical_of_restored (a : Automata) (input : List String)
    (b : Bool) (h : simulate a (initConfig a) input = .ok (b, initConfig a)) :
    runTwice a input = .ok (b, b) := by
  simp [runTwice, h]

theorem runTwice_identical_of_restored_witness :
    runTwice statefulDemo [] = .ok (true, true) :=
  runTwice_identical_of_restored statefulDemo [] true (by decide)

/-- Claim C2: for the canonical worked automaton and every permutation
of the multiset of three ones and six zeros, simulate from a fresh
configuration returns exactly the truth of the count test of the
harness, namely true, since six zeros are twice three ones. -/
theorem canonical_accepts_every_permutation (p : List String)
    (h : p.Perm basePerm) :
    simulateResult canonicalAutomata (initConfig canonicalAutomata) p =
      .ok (decide (p.count "0" = 2 * p.count "1")) := by
  have h0 : p.count "0" = 6 := by
    have := h.count_eq "0"
    simpa [basePerm] using this
  have h1 : p.count "1" = 3 := by
    have := h.count_eq "1"
    simpa [basePerm] using this
  have hlen : p.length = 9 := by
    have := h.length_eq
    simpa [basePerm] using this
  have hmem : ∀ x ∈ p, x = "0" ∨ x = "1" := by
    intro x hx
    have hxb := h.subset hx
    simp only [basePerm, List.mem_cons, List.not_mem_nil, or_false] at hxb
    tauto
  have hp : p ∈ binLists 9 := mem_binLists p 9 hlen hmem
  have hall := allPermChecked_true
  rw [allPermChecked, List.all_eq_true] at hall
  have hcp := hall p hp
  rw [permCheck] at hcp
  simp only [h0, h1] at hcp
  simp at hcp
  rw [h0, h1]
  simpa using hcp

theorem canonical_accepts_every_permutation_witness :
    simulateResult canonicalAutomata (initConfig canonicalAutomata) basePerm =
      .ok (decide (basePerm.count "0" = 2 * basePerm.count "1")) :=
  canonical_accepts_every_permutation basePerm (List.Perm.refl basePerm)

/-- Splitting the line list around a point: the loop of
create_from_file processes a prefix first and aborts on the first
raised error. -/
theorem parseLines_append (ps : ParseState) (l1 l2 : List String) :
    parseLines ps (l1 ++ l2) =
      match parseLines ps l1 with
      | .ok ps2 => parseLines ps2 l2
      | .error e => .error e := by
  induction l1 generalizing ps with
  | nil => simp [parseLines]
  | cons l rest ih =>
    simp only [List.cons_append, parseLines]
    cases processLine ps l with
    | ok ps2 => exact ih ps2
    | error e => rfl

/-- Claim C6: when the line loop reaches a transition-block state
header, a stripped line of word characters followed by a colon that no
earlier keyword branch captures, and the named state is not among the
declared states, create_from_file aborts at once with the ValueError
naming the offending state and the declared state list; the remaining
lines are never processed. -/
theorem create_from_file_undeclared_state (pre : List String) (ps : ParseState)
    (line s : String) (rest : List String)
    (hpre : parseLines initParseState pre = .ok ps)
    (h1 : (pyStarts (pyStrip line) "#" || (pyStrip line).toList.isEmpty) = false)
    (h2 : pyStarts (pyStrip line) "states:" = false)
    (h3 : pyStarts (pyStrip line) "alphabet:" = false)
    (h4 : pyStarts (pyStrip line) "initial_state:" = false)
    (h5 : pyStarts (pyStrip line) "final_states:" = false)
    (h6 : pyStarts (pyStrip line) "rejecting_states:" = false)
    (h7 : pyStarts (pyStrip line) "transition_function:" = false)
    (hh : matchStateHeader (pyStrip line) = some s)
    (hmem : s ∉ ps.states) :
    create_from_file (pre ++ line :: rest) =
      .error (.stateNotInStates s ps.states) := by
  have hstep : processLine ps line = .error (.stateNotInStates s ps.states) := by
    unfold processLine processTrimmed
    rw [h1, h2, h3, h4, h5, h6, h7, hh]
    simp [hmem]
  unfold create_from_file
  rw [parseLines_append, hpre]
  simp [parseLines, hstep, Except.map]

theorem create_from_file_undeclared_state_witness :
    create_from_file
      ["states: q0", "transition_function:", "q9:", "(0, >) -> q0 []"] =
      .error (.stateNotInStates "q9" ["q0"]) :=
  create_from_file_undeclared_state ["states: q0", "transition_function:"]
    { states := ["q0"], alphabet := [], initial_state := none,
      final_states := [], rejecting_states := [], transition_function := [],
      current_state := none }
    "q9:" "q9" ["(0, >) -> q0 []"]
    (by decide) (by decide) (by decide) (by decide) (by decide) (by decide)
    (by decide) (by decide) (by decide) (by decide)

/-- Claim C7 counterexample: a definition whose alphabet line holds the
token INPUT_END and whose transition key uses INPUT_END in the
input-symbol position.  The parser keeps both verbatim, rewriting only
the stack-top occurrence of STACK_END to the sentinel, so the claim
that the rewrite applies anywhere a symbol is expected, the alphabet
and the input-symbol position of the key included, is false. -/
theorem parser_verbatim_counterexample :
    (parseLines initParseState
        ["alphabet: INPUT_END", "states: q0", "transition_function:", "q0:",
         "(INPUT_END, STACK_END) -> q0 []"]).map
      (fun ps => (ps.alphabet, ps.transition_function)) =
    .ok (["INPUT_END"], [("q0", [(⟨"INPUT_END", ">"⟩, ⟨"q0", []⟩)])]) := by
  decide

/-- Claim C7 amended: on a transition line matched inside a state
block, the parser rewrites the tokens STACK_END and INPUT_END only in
the stack-top position of the key and in the stripped push-list
entries; the input-symbol position of the key is stored verbatim, as
are alphabet tokens. -/
theorem parser_substitution_positions (ps : ParseState) (cs line : String)
    (i st ns act : String)
    (hcs : ps.current_state = some cs)
    (h1 : (pyStarts (pyStrip line) "#" || (pyStrip line).toList.isEmpty) = false)
    (h2 : pyStarts (pyStrip line) "states:" = false)
    (h3 : pyStarts (pyStrip line) "alphabet:" = false)
    (h4 : pyStarts (pyStrip line) "initial_state:" = false)
    (h5 : pyStarts (pyStrip line) "final_states:" = false)
    (h6 : pyStarts (pyStrip line) "rejecting_states:" = false)
    (h7 : pyStarts (pyStrip line) "transition_function:" = false)
    (hh : matchStateHeader (pyStrip line) = none)
    (harr : hasArrow (pyStrip line) = true)
    (hm : matchTransitionLine (pyStrip line) = some (i, st, ns, act)) :
    processLine ps line = .ok { ps with transition_function := insertTF ps.transition_function cs ⟨i, substReserved st⟩ ⟨ns, parsePushList act⟩ } := by
  unfold processLine processTrimmed
  rw [h1, h2, h3, h4, h5, h6, h7, hh, hcs, harr, hm]
  simp

theorem parser_substitution_positions_witness :
    processLine
      { initParseState with current_state := some "q0" }
      "(INPUT_END, STACK_END) -> q1 [STACK_END, INPUT_END, x]" =
      .ok { initParseState with current_state := some "q0", transition_function := [("q0", [(⟨"INPUT_END", ">"⟩, ⟨"q1", [">", "<", "x"]⟩)])] } :=
  parser_substitution_positions
    { initParseState with current_state := some "q0" } "q0"
    "(INPUT_END, STACK_END) -> q1 [STACK_END, INPUT_END, x]"
    "INPUT_END" "STACK_END" "q1" "STACK_END, INPUT_END, x"
    rfl (by decide) (by decide) (by decide) (by decide) (by decide) (by decide)
    (by decide) (by decide) (by decide) (by decide)
